import Mathlib

/-!
Verification of the keyword-list classifier and messaging wrappers of the
whatsapp-mcp-server (src/whatsapp-mcp-server/main.py), as a shallow embedding
in Lean 4.

External collaborators (the sqlite store, the whatsapp transport, the
filesystem holding chat_lists.json) are passed in as explicit parameters, and
the effects the code performs on them (store reads, transport sends) are
returned as explicit counts/traces alongside the value the Python function
returns, so that properties such as "performs no store query" or "invokes the
transport exactly once" become statements about those components.
-/

namespace WhatsappMCP

/-! ## Python string primitives -/

/-- Embedding of the Python substring test `needle in hay` on lists of
characters: some contiguous run of `hay` equals `needle`. -/
def substrAux (needle : List Char) : List Char → Bool
  | [] => needle.isPrefixOf []
  | b :: bs => needle.isPrefixOf (b :: bs) || substrAux needle bs

/-- Embedding of the Python membership test `needle in hay` for strings. -/
def pyIn (needle hay : String) : Bool :=
  substrAux needle.data hay.data

/-- Embedding of Python `s.lower()`: lowercase every character (per-character
case folding, `Char.toLower`). -/
def pyLower (s : String) : String :=
  ⟨s.data.map Char.toLower⟩

/-- Embedding of Python `len(s)`: the number of characters. -/
def pyLen (s : String) : Nat :=
  s.data.length

/-- Embedding of the Python slice `s[:n]`: the first `n` characters. -/
def pyTake (s : String) (n : Nat) : String :=
  ⟨s.data.take n⟩

/-- Embedding of Python `sep.join(parts)`. -/
def pyJoin (sep : String) : List String → String
  | [] => ""
  | [x] => x
  | x :: y :: xs => x ++ sep ++ pyJoin sep (y :: xs)

/-- Rendering of an optional sqlite value inside a Python f-string: `None`
prints as `"None"`, a string prints as itself. -/
def pyStrOpt : Option String → String
  | some s => s
  | none => "None"

/-- Embedding of Python `x or ""` on an optional string (`None` and `""` are
falsy, so both map to `""`). -/
def orEmpty : Option String → String
  | some s => s
  | none => ""

/-! ## Data model

One row of the SQL result
`SELECT c.jid, c.name, c.last_message_time, m.content as last_message
 FROM chats c LEFT JOIN messages m ...`:
`name` and `last_message` are nullable columns, modelled as `Option String`;
the last-activity timestamp is modelled as an integer. -/

structure ChatRow where
  jid : String
  name : Option String
  last_message_time : Int
  last_message : Option String
deriving DecidableEq, Repr

/-- Embedding of the SQL predicate `c.name != ''` (NULL compares unknown, so
NULL names are filtered out exactly like empty ones). -/
def sqlNamed (r : ChatRow) : Bool :=
  (orEmpty r.name) != ""

/-- Stable insertion of a row into a list kept in descending
`last_message_time` order. -/
def insertDesc (r : ChatRow) : List ChatRow → List ChatRow
  | [] => [r]
  | x :: xs =>
    if x.last_message_time ≤ r.last_message_time then r :: x :: xs
    else x :: insertDesc r xs

/-- Embedding of `ORDER BY c.last_message_time DESC` (sqlite fixes no order
between ties; insertion sort realises one admissible order). -/
def sortByTimeDesc : List ChatRow → List ChatRow
  | [] => []
  | x :: xs => insertDesc x (sortByTimeDesc xs)

/-- Semantics of the SQL query issued by get_list_chats, over the chats table
contents `db`: keep the named chats, most recently active first. -/
def execChatsQuery (db : List ChatRow) : List ChatRow :=
  sortByTimeDesc (db.filter sqlNamed)

/-- Descending order on rows by last-activity timestamp. -/
def timeGE (a b : ChatRow) : Prop :=
  b.last_message_time ≤ a.last_message_time

/-! ## Keyword-list configuration -/

/-- Contents of chat_lists.json: a JSON object mapping list labels to keyword
arrays, in insertion order (Python dicts preserve it). -/
abbrev ChatLists := List (String × List String)

/-- Embedding of `_load_chat_lists`: the filesystem view of chat_lists.json is
passed explicitly (`none` when the file does not exist, in which case the
function returns the empty mapping). -/
def _load_chat_lists (fs : Option ChatLists) : ChatLists :=
  fs.getD []

/-- Embedding of
`next((k for k in lists if k.lower() == list_name.lower()), None)`:
the first configured label equal to `list_name` up to case. -/
def matchedKey (lists : ChatLists) (list_name : String) : Option String :=
  (lists.find? (fun kv => pyLower kv.1 == pyLower list_name)).map Prod.fst

/-- Embedding of the Python dict lookup `lists[matched_key]` (keys of a dict
are unique, so the first binding is the binding). -/
def dictGet (lists : ChatLists) (k : String) : List String :=
  ((lists.find? (fun kv => kv.1 == k)).map Prod.snd).getD []

/-- Embedding of the match predicate
`any(kw.lower() in (name or '').lower() for kw in keywords)`. -/
def chatMatches (keywords : List String) (r : ChatRow) : Bool :=
  keywords.any (fun kw => pyIn (pyLower kw) (pyLower (orEmpty r.name)))

/-- The chats the classifier selects for a keyword set, in store order:
the list comprehension filtering `all_chats`. -/
def matchesFor (keywords : List String) (db : List ChatRow) : List ChatRow :=
  (execChatsQuery db).filter (chatMatches keywords)

/-! ## Output rendering -/

/-- Message returned when chat_lists.json defines no lists. -/
def noListsMsg : String :=
  "No lists defined. Edit chat_lists.json in the whatsapp-mcp-server folder to create your lists."

/-- Embedding of
`f"List '{list_name}' not found. Available lists: {available}"` with
`available = ", ".join(lists.keys())`. -/
def notFoundMsg (list_name : String) (lists : ChatLists) : String :=
  "List \x27" ++ list_name ++ "\x27 not found. Available lists: " ++
    pyJoin ", " (lists.map Prod.fst)

/-- Python repr of a list of strings, as interpolated by `f"... {keywords}"`. -/
def pyListRepr (l : List String) : String :=
  "[" ++ pyJoin ", " (l.map (fun s => "\x27" ++ s ++ "\x27")) ++ "]"

/-- Embedding of the no-matches message of get_list_chats. -/
def noMatchesMsg (matched_key : String) (keywords : List String) : String :=
  "No chats found for list \x27" ++ matched_key ++ "\x27 with keywords: " ++
    pyListRepr keywords ++ "\nTry editing chat_lists.json to adjust the keywords."

/-- Embedding of the preview expression
`(last_msg[:60] + "...") if last_msg and len(last_msg) > 60 else (last_msg or "")`. -/
def preview (last_msg : Option String) : String :=
  match last_msg with
  | some m => if pyLen m > 60 then pyTake m 60 ++ "..." else m
  | none => ""

/-- Embedding of the per-chat entry
`f"• {name}  [{last_time}]\n  {preview}"`. -/
def entryLine (r : ChatRow) : String :=
  "• " ++ pyStrOpt r.name ++ "  [" ++ toString r.last_message_time ++ "]" ++
    "\n  " ++ preview r.last_message

/-- Embedding of the success rendering: header line
`f"📋 {matched_key} ({len(matches)} chats)\n"` followed by one entry per
matching chat, joined with newlines. -/
def renderMatches (matched_key : String) (ms : List ChatRow) : String :=
  pyJoin "\n"
    (("📋 " ++ matched_key ++ " (" ++ toString ms.length ++ " chats)\n") ::
      ms.map entryLine)

/-! ## get_list_chats

The sqlite store is passed as `store : Except String (List ChatRow)`: the
outcome of the one read the code can perform — either the chats table
contents, or the sqlite error the `except` clause catches. The function
returns the string the Python returns, paired with the number of store reads
the invocation performed (`cursor.execute` runs exactly once, in the branch
past the configuration checks, whether it succeeds or raises). -/

/-- Continuation of get_list_chats once the list name resolved to the stored
key `k` (everything from `keywords = lists[matched_key]` on). -/
def listChatsForKey (lists : ChatLists) (k : String)
    (store : Except String (List ChatRow)) : String × Nat :=
  let keywords := dictGet lists k
  match store with
  | .error e => ("Database error: " ++ e, 1)
  | .ok db =>
    let ms := matchesFor keywords db
    if ms.isEmpty then (noMatchesMsg k keywords, 1)
    else (renderMatches k ms, 1)

/-- Embedding of the tool `get_list_chats(list_name)`. -/
def get_list_chats (fs : Option ChatLists) (list_name : String)
    (store : Except String (List ChatRow)) : String × Nat :=
  let lists := _load_chat_lists fs
  if lists.isEmpty then (noListsMsg, 0)
  else
    match matchedKey lists list_name with
    | none => (notFoundMsg list_name lists, 0)
    | some k => listChatsForKey lists k store

/-- Path constant shown by show_all_lists; at runtime it is the absolute path
of chat_lists.json next to main.py, opaque to the properties proved here. -/
def CHAT_LISTS_PATH : String :=
  "chat_lists.json"

/-- Embedding of the tool `show_all_lists()`. -/
def show_all_lists (fs : Option ChatLists) : String :=
  let lists := _load_chat_lists fs
  if lists.isEmpty then noListsMsg
  else
    pyJoin "\n"
      (("📋 Your Custom Chat Lists\n" ::
        lists.map (fun kv => "• " ++ kv.1 ++ ": " ++ pyJoin ", " kv.2)) ++
        ["\nEdit: " ++ CHAT_LISTS_PATH])

/-! ## send_message and download_media

The whatsapp transport collaborators are passed as explicit functions. For
send_message the result is paired with the trace of transport invocations the
call performed (the arguments of each call, in order), so the number of sends
is part of the embedding. -/

/-- Result dictionary of send_message: success status and status message. -/
structure SendResult where
  success : Bool
  message : String
deriving DecidableEq, Repr

/-- Embedding of the tool `send_message(recipient, message)`; `transport` is
the external `whatsapp_send_message`, returning a (success, status_message)
pair. Python `if not recipient:` is the empty-string test on a str. -/
def send_message (transport : String → String → Bool × String)
    (recipient message : String) : SendResult × List (String × String) :=
  if recipient == "" then
    ({ success := false, message := "Recipient must be provided" }, [])
  else
    ({ success := (transport recipient message).1,
       message := (transport recipient message).2 }, [(recipient, message)])

/-- Result dictionary of download_media: `file_path := none` models the
absence of the "file_path" key. -/
structure MediaResult where
  success : Bool
  message : String
  file_path : Option String
deriving DecidableEq, Repr

/-- Python truthiness of the optional path returned by the downloader:
`None` and `""` are falsy, every other string is truthy. -/
def pyTruthy : Option String → Bool
  | none => false
  | some t => t != ""

/-- Embedding of the tool `download_media(message_id, chat_jid)`; `dl` is the
external `whatsapp_download_media`, returning a local path or `None`. -/
def download_media (dl : String → String → Option String)
    (message_id chat_jid : String) : MediaResult :=
  let file_path := dl message_id chat_jid
  if pyTruthy file_path then
    { success := true, message := "Media downloaded successfully",
      file_path := file_path }
  else
    { success := false, message := "Failed to download media",
      file_path := none }

/-! ## Sample data used by witnesses and counterexamples -/

/-- Sample chat row used to instantiate C1 (the example of the spec). -/
def girlsTripRow : ChatRow :=
  ⟨"g1@g.us", some "Girls Trip 2024", 10, some "hi"⟩

/-- Sample named chat row for the C3 witness. -/
def famRow : ChatRow := ⟨"a@g.us", some "Fam", 3, none⟩

/-- Sample store with two dance chats, less recent first, for the C5 witness. -/
def danceDb : List ChatRow :=
  [⟨"d1@g.us", some "Dance Crew", 1, some "ok"⟩,
   ⟨"d2@g.us", some "Salsa dance", 5, some "tonight"⟩]

/-- Configuration of chat_lists.json as loaded at process startup, for C7. -/
def listsAtStartup : ChatLists := [("Dance", ["dance"])]

/-- Configuration of chat_lists.json after the user edits the file, for C7. -/
def listsAfterEdit : ChatLists := [("Dance", ["salsa"])]

/-- Store row matched by the edited keywords only, for C7. -/
def salsaRow : ChatRow := ⟨"s@g.us", some "Salsa Club", 5, some "see you"⟩

/-- Sample matching chat row for C6: jid, display name, timestamp, preview. -/
def danceNightRow : ChatRow := ⟨"123@g.us", some "Dance Night", 7, some "hello"⟩

/-- Sample last message longer than the 60-character budget, for C6. -/
def longMsg : String :=
  "We are meeting at the station at nine thirty, bring the tickets please"

/-- Sample chat row whose last message exceeds the budget, for C6. -/
def standupRow : ChatRow := ⟨"w@g.us", some "Standup", 3, some longMsg⟩

/-- Sample transport collaborator for the C9 witness. -/
def demoTransport : String → String → Bool × String :=
  fun r _ => (true, "Sent to " ++ r)

/-- Downloader collaborator returning a non-null but empty path, for C10. -/
def emptyPathDl : String → String → Option String :=
  fun _ _ => some ""

/-- Downloader collaborator returning a real path, for the C10 witness. -/
def photoDl : String → String → Option String :=
  fun _ _ => some "/tmp/photo.jpg"

/-! ## Helper lemmas -/

theorem substrAux_eq_true_iff (needle : List Char) :
    ∀ hay : List Char, substrAux needle hay = true ↔ needle <:+: hay := by
  intro hay
  induction hay with
  | nil => simp [substrAux]
  | cons b bs ih =>
    simp [substrAux, ih, List.infix_cons_iff]

theorem pyIn_iff (needle hay : String) :
    pyIn needle hay = true ↔ needle.data <:+: hay.data :=
  substrAux_eq_true_iff needle.data hay.data

theorem data_infix_pyJoin (sep : String) :
    ∀ (l : List String), ∀ a ∈ l, a.data <:+: (pyJoin sep l).data := by
  intro l
  induction l with
  | nil => intro a ha; cases ha
  | cons x xs ih =>
    intro a ha
    cases xs with
    | nil =>
      rcases List.mem_singleton.mp ha with rfl
      exact List.infix_rfl
    | cons y ys =>
      rcases List.mem_cons.mp ha with rfl | hmem
      · exact ⟨[], (sep ++ pyJoin sep (y :: ys)).data, by simp [pyJoin]⟩
      · rcases ih a hmem with ⟨u, v, huv⟩
        exact ⟨(x ++ sep).data ++ u, v, by simp [pyJoin, ← huv]⟩

theorem mem_insertDesc (r a : ChatRow) :
    ∀ l : List ChatRow, a ∈ insertDesc r l ↔ a = r ∨ a ∈ l := by
  intro l
  induction l with
  | nil => simp [insertDesc]
  | cons x xs ih =>
    by_cases h : x.last_message_time ≤ r.last_message_time
    · simp [insertDesc, h]
    · simp [insertDesc, h, ih]
      tauto

theorem mem_sortByTimeDesc (a : ChatRow) :
    ∀ l : List ChatRow, a ∈ sortByTimeDesc l ↔ a ∈ l := by
  intro l
  induction l with
  | nil => simp [sortByTimeDesc]
  | cons x xs ih =>
    simp [sortByTimeDesc, mem_insertDesc, ih]

theorem pairwise_insertDesc (r : ChatRow) :
    ∀ l : List ChatRow, l.Pairwise timeGE → (insertDesc r l).Pairwise timeGE := by
  intro l
  induction l with
  | nil => intro _; simp [insertDesc, timeGE]
  | cons x xs ih =>
    intro hp
    rcases List.pairwise_cons.mp hp with ⟨hx, hxs⟩
    by_cases h : x.last_message_time ≤ r.last_message_time
    · rw [insertDesc, if_pos h]
      refine List.pairwise_cons.mpr ⟨?_, hp⟩
      intro b hb
      rcases List.mem_cons.mp hb with rfl | hbmem
      · exact h
      · exact le_trans (hx b hbmem) h
    · rw [insertDesc, if_neg h]
      refine List.pairwise_cons.mpr ⟨?_, ih hxs⟩
      intro b hb
      rcases (mem_insertDesc r b xs).mp hb with rfl | hbmem
      · exact le_of_not_le h
      · exact hx b hbmem

theorem pairwise_sortByTimeDesc :
    ∀ l : List ChatRow, (sortByTimeDesc l).Pairwise timeGE := by
  intro l
  induction l with
  | nil => simp [sortByTimeDesc]
  | cons x xs ih => exact pairwise_insertDesc x (sortByTimeDesc xs) ih

theorem sqlNamed_eq_true_iff (r : ChatRow) :
    sqlNamed r = true ↔ orEmpty r.name ≠ "" := by
  simp [sqlNamed]

theorem chatMatches_eq_true_iff (keywords : List String) (r : ChatRow) :
    chatMatches keywords r = true ↔
      ∃ kw ∈ keywords, (pyLower kw).data <:+: (pyLower (orEmpty r.name)).data := by
  simp [chatMatches, List.any_eq_true, pyIn_iff]

/-- Full characterisation of membership in the classifier's selection: a chat
row is selected iff it is in the store, has a nonempty display name, and some
keyword, lowercased, is a substring of its lowercased display name. -/
theorem mem_matchesFor (keywords : List String) (db : List ChatRow) (r : ChatRow) :
    r ∈ matchesFor keywords db ↔
      r ∈ db ∧ orEmpty r.name ≠ "" ∧
        ∃ kw ∈ keywords, (pyLower kw).data <:+: (pyLower (orEmpty r.name)).data := by
  rw [matchesFor, List.mem_filter, execChatsQuery, mem_sortByTimeDesc,
    List.mem_filter, chatMatches_eq_true_iff, sqlNamed_eq_true_iff, and_assoc]

/-- A resolved list name means the configuration was nonempty and the match
branch of get_list_chats is taken. -/
theorem get_list_chats_of_matchedKey (fs : Option ChatLists) (n k : String)
    (store : Except String (List ChatRow))
    (h : matchedKey (_load_chat_lists fs) n = some k) :
    get_list_chats fs n store = listChatsForKey (_load_chat_lists fs) k store := by
  unfold get_list_chats
  cases hl : _load_chat_lists fs with
  | nil => rw [hl] at h; simp [matchedKey] at h
  | cons a as => rw [hl] at h; simp [h]

/-- Every invocation of get_list_chats performs at most one store read. -/
theorem get_list_chats_reads_le_one (fs : Option ChatLists) (n : String)
    (store : Except String (List ChatRow)) :
    (get_list_chats fs n store).2 ≤ 1 := by
  unfold get_list_chats listChatsForKey
  by_cases h : (_load_chat_lists fs).isEmpty
  · simp [h]
  · cases hk : matchedKey (_load_chat_lists fs) n with
    | none => simp [h, hk]
    | some k =>
      cases store with
      | error e => simp [h, hk]
      | ok db =>
        simp only [h, hk, Bool.false_eq_true, if_false]
        split <;> simp

/-! ## Claims -/

/-- Claim C1: for every chat returned by get_list_chats for a list, and for no
chat omitted from it, membership is decided exactly by case-insensitive
unanchored substring matching: a named chat of the store belongs to the
selection iff at least one of the list's keywords, lowercased, occurs as a
substring of the chat's lowercased display name (so a chat may belong to the
selections of zero, one, or several lists). -/
theorem claim_C1_keyword_membership (keywords : List String) (db : List ChatRow)
    (r : ChatRow) (hdb : r ∈ db) (hnamed : orEmpty r.name ≠ "") :
    r ∈ matchesFor keywords db ↔
      ∃ kw ∈ keywords, (pyLower kw).data <:+: (pyLower (orEmpty r.name)).data := by
  rw [mem_matchesFor]
  exact ⟨fun h => h.2.2, fun h => ⟨hdb, hnamed, h⟩⟩

/-- Witness for C1: the spec's example chat is classified under the keywords
of the "Trip" list. -/
theorem claim_C1_witness :
    girlsTripRow ∈ matchesFor ["trip", "vacation"] [girlsTripRow] :=
  (claim_C1_keyword_membership ["trip", "vacation"] [girlsTripRow] girlsTripRow
      (by decide) (by decide)).mpr
    ⟨"trip", by decide, (pyIn_iff _ _).mp (by decide)⟩

/-- Claim C3: for every list and every store state, no chat with an empty
display name appears among the chats get_list_chats selects; unnamed chats are
excluded unconditionally, whatever the keywords. -/
theorem claim_C3_no_unnamed_chats (keywords : List String) (db : List ChatRow)
    (r : ChatRow) (h : r ∈ matchesFor keywords db) :
    orEmpty r.name ≠ "" :=
  ((mem_matchesFor keywords db r).mp h).2.1

/-- Witness for C3: even under the empty keyword (a substring of every name),
a selected chat has a nonempty display name. -/
theorem claim_C3_witness :
    famRow ∈ matchesFor [""] [famRow, ⟨"b@g.us", some "", 9, none⟩] ∧
      orEmpty famRow.name ≠ "" :=
  ⟨by decide, claim_C3_no_unnamed_chats [""] [famRow, ⟨"b@g.us", some "", 9, none⟩]
    famRow (by decide)⟩

/-- Claim C5: when the list resolves and has matching chats, get_list_chats
renders exactly the selected chats, and they appear ordered by last-activity
timestamp descending (most recently active first). -/
theorem claim_C5_sorted_desc (fs : Option ChatLists) (n k : String)
    (db : List ChatRow)
    (h : matchedKey (_load_chat_lists fs) n = some k)
    (hne : matchesFor (dictGet (_load_chat_lists fs) k) db ≠ []) :
    get_list_chats fs n (.ok db) =
        (renderMatches k (matchesFor (dictGet (_load_chat_lists fs) k) db), 1) ∧
      (matchesFor (dictGet (_load_chat_lists fs) k) db).Pairwise timeGE := by
  constructor
  · rw [get_list_chats_of_matchedKey fs n k _ h]
    unfold listChatsForKey
    simp [List.isEmpty_iff, hne]
  · exact List.Pairwise.sublist (List.filter_sublist _) (pairwise_sortByTimeDesc _)

/-- Witness for C5 on a concrete configuration and store. -/
theorem claim_C5_witness :
    get_list_chats (some [("Dance", ["dance"])]) "dance" (.ok danceDb) =
        (renderMatches "Dance"
          (matchesFor (dictGet (_load_chat_lists (some [("Dance", ["dance"])])) "Dance")
            danceDb), 1) ∧
      (matchesFor (dictGet (_load_chat_lists (some [("Dance", ["dance"])])) "Dance")
          danceDb).Pairwise timeGE :=
  claim_C5_sorted_desc (some [("Dance", ["dance"])]) "dance" "Dance" danceDb
    (by decide) (by decide)

/-- Claim C2: for every list_name matching no configured label up to case,
get_list_chats fails with the not-found message, whose payload reports every
valid list name, and the result does not depend on the store at all (no store
read is performed: the read count is 0). -/
theorem claim_C2_unknown_list (fs : Option ChatLists) (list_name : String)
    (hne : _load_chat_lists fs ≠ [])
    (hno : ∀ kv ∈ _load_chat_lists fs, pyLower kv.1 ≠ pyLower list_name) :
    ∀ store, get_list_chats fs list_name store =
        (notFoundMsg list_name (_load_chat_lists fs), 0) ∧
      ∀ kv ∈ _load_chat_lists fs,
        kv.1.data <:+: (notFoundMsg list_name (_load_chat_lists fs)).data := by
  intro store
  have hfind : (_load_chat_lists fs).find?
      (fun kv => pyLower kv.1 == pyLower list_name) = none := by
    rw [List.find?_eq_none]
    intro kv hkv
    simpa using hno kv hkv
  have hkey : matchedKey (_load_chat_lists fs) list_name = none := by
    unfold matchedKey
    rw [hfind]
    rfl
  constructor
  · unfold get_list_chats
    rw [if_neg (by simpa [List.isEmpty_iff] using hne)]
    rw [hkey]
  · intro kv hkv
    rcases data_infix_pyJoin ", " ((_load_chat_lists fs).map Prod.fst) kv.1
        (List.mem_map.mpr ⟨kv, hkv, rfl⟩) with ⟨u, v, huv⟩
    exact ⟨("List \x27" ++ list_name ++ "\x27 not found. Available lists: ").data ++ u,
      v, by simp [notFoundMsg, ← huv]⟩

/-- Witness for C2: a concrete two-list configuration and an unknown name. -/
theorem claim_C2_witness :
    get_list_chats (some [("Family", ["fam"]), ("Work", ["standup"])]) "Dance"
        (.ok []) =
      (notFoundMsg "Dance" (_load_chat_lists
        (some [("Family", ["fam"]), ("Work", ["standup"])])), 0) ∧
    "Family".data <:+: (notFoundMsg "Dance" (_load_chat_lists
        (some [("Family", ["fam"]), ("Work", ["standup"])]))).data :=
  ⟨(claim_C2_unknown_list (some [("Family", ["fam"]), ("Work", ["standup"])])
      "Dance" (by decide) (by decide) (.ok [])).1,
   (claim_C2_unknown_list (some [("Family", ["fam"]), ("Work", ["standup"])])
      "Dance" (by decide) (by decide) (.ok [])).2 ("Family", ["fam"]) (by decide)⟩

/-- Claim C4: when some configured label equals list_name up to case, lookup
resolves to exactly one configured key — the same one for every casing of
list_name, that key being equal to list_name up to case — and the whole
result of get_list_chats is independent of the casing of list_name. -/
theorem claim_C4_case_insensitive_lookup (fs : Option ChatLists) (n1 n2 : String)
    (store : Except String (List ChatRow))
    (hex : ∃ kv ∈ _load_chat_lists fs, pyLower kv.1 = pyLower n1)
    (hcase : pyLower n1 = pyLower n2) :
    (matchedKey (_load_chat_lists fs) n1 = matchedKey (_load_chat_lists fs) n2 ∧
      ∀ k, matchedKey (_load_chat_lists fs) n1 = some k →
        k ∈ (_load_chat_lists fs).map Prod.fst ∧ pyLower k = pyLower n1) ∧
    get_list_chats fs n1 store = get_list_chats fs n2 store := by
  have hpred : (fun kv : String × List String => pyLower kv.1 == pyLower n2) =
      (fun kv : String × List String => pyLower kv.1 == pyLower n1) := by
    funext kv; rw [hcase]
  have heq : matchedKey (_load_chat_lists fs) n2 =
      matchedKey (_load_chat_lists fs) n1 := by
    unfold matchedKey; rw [hpred]
  have hsome : ((_load_chat_lists fs).find?
      (fun kv => pyLower kv.1 == pyLower n1)).isSome := by
    rw [List.find?_isSome]
    rcases hex with ⟨kv, hkv, hkve⟩
    exact ⟨kv, hkv, by simp [hkve]⟩
  rcases Option.isSome_iff_exists.mp hsome with ⟨kv0, hkv0⟩
  refine ⟨⟨heq.symm, ?_⟩, ?_⟩
  · intro k hk
    have hk0 : matchedKey (_load_chat_lists fs) n1 = some kv0.1 := by
      simp [matchedKey, hkv0]
    rw [hk0] at hk
    rcases Option.some_inj.mp hk with rfl
    refine ⟨List.mem_map.mpr ⟨kv0, List.mem_of_find?_eq_some hkv0, rfl⟩, ?_⟩
    have := List.find?_some hkv0
    exact eq_of_beq this
  · rw [get_list_chats_of_matchedKey fs n1 kv0.1 store (by simp [matchedKey, hkv0]),
      get_list_chats_of_matchedKey fs n2 kv0.1 store (by rw [heq]; simp [matchedKey, hkv0])]

/-- Witness for C4: the spec's example — list "Trip" queried as "trip" and as
"TRIP" — yields the same output on a concrete store. -/
theorem claim_C4_witness :
    get_list_chats (some [("Trip", ["trip", "vacation"])]) "trip"
        (.ok [girlsTripRow]) =
      get_list_chats (some [("Trip", ["trip", "vacation"])]) "TRIP"
        (.ok [girlsTripRow]) :=
  (claim_C4_case_insensitive_lookup (some [("Trip", ["trip", "vacation"])])
      "trip" "TRIP" (.ok [girlsTripRow]) (by decide) (by decide)).2

/-- Counterexample to claim C7: the configuration is NOT loaded once per
process — `_load_chat_lists` re-reads chat_lists.json on every call, so an
invocation after the file changed uses the new mapping and produces a
different result than it would with the startup mapping. -/
theorem claim_C7_counterexample :
    get_list_chats (some listsAfterEdit) "Dance" (.ok [salsaRow]) ≠
      get_list_chats (some listsAtStartup) "Dance" (.ok [salsaRow]) := by
  decide

/-- Claim C7 amended: each invocation of get_list_chats (and show_all_lists)
uses exactly the label-to-keywords mapping read from chat_lists.json at that
invocation: two invocations observing equal file contents behave identically,
whatever else differs. -/
theorem claim_C7_amended_reload (fs fs' : Option ChatLists)
    (h : _load_chat_lists fs = _load_chat_lists fs') (n : String)
    (store : Except String (List ChatRow)) :
    get_list_chats fs n store = get_list_chats fs' n store ∧
      show_all_lists fs = show_all_lists fs' := by
  unfold get_list_chats show_all_lists
  rw [h]
  exact ⟨rfl, rfl⟩

/-- Witness for the amended C7. -/
theorem claim_C7_amended_witness :
    get_list_chats (some [("A", ["a"])]) "A" (.ok []) =
        get_list_chats (some [("A", ["a"])]) "A" (.ok []) ∧
      show_all_lists (some [("A", ["a"])]) = show_all_lists (some [("A", ["a"])]) :=
  claim_C7_amended_reload (some [("A", ["a"])]) (some [("A", ["a"])]) rfl "A" (.ok [])

/-- Claim C8: when the store read fails, get_list_chats surfaces the failure
as-is as a value-level result (the database-error string built from the store
error), after having performed its single store read; and no invocation ever
reads the store more than once (no automatic retry). -/
theorem claim_C8_store_error_surfaced (fs : Option ChatLists) (n k e : String)
    (store : Except String (List ChatRow))
    (h : matchedKey (_load_chat_lists fs) n = some k) :
    get_list_chats fs n (.error e) = ("Database error: " ++ e, 1) ∧
      (get_list_chats fs n store).2 ≤ 1 := by
  refine ⟨?_, get_list_chats_reads_le_one fs n store⟩
  rw [get_list_chats_of_matchedKey fs n k _ h]
  rfl

/-- Witness for C8 on a concrete configuration and sqlite error. -/
theorem claim_C8_witness :
    get_list_chats (some [("Family", ["fam"])]) "family" (.error "database is locked") =
        ("Database error: " ++ "database is locked", 1) ∧
      (get_list_chats (some [("Family", ["fam"])]) "family" (.ok [])).2 ≤ 1 :=
  claim_C8_store_error_surfaced (some [("Family", ["fam"])]) "family" "Family"
    "database is locked" (.ok []) (by decide)

/-- Counterexample to claim C6: the entry produced for a matching chat is not
a one-line entry containing the chat's identifier — it spans two lines (it
contains a newline) and shows the display name, not the jid, which does not
occur in it at all. -/
theorem claim_C6_counterexample :
    ¬ (Char.ofNat 10 ∉ (entryLine danceNightRow).data ∧
        "123@g.us".data <:+: (entryLine danceNightRow).data) := by
  decide

/-- Claim C6 amended: every matching chat is produced as a two-line entry
appearing in the rendered output — display name and last-activity timestamp on
the first line, the preview of its last message indented on the second — where
a preview longer than 60 characters is truncated to 60 and suffixed with the
ellipsis marker "...", and a preview of at most 60 characters is emitted
unchanged. -/
theorem claim_C6_amended_entry_format (k : String) (ms : List ChatRow)
    (r : ChatRow) (hr : r ∈ ms) (m : String) (hm : r.last_message = some m) :
    (entryLine r).data <:+: (renderMatches k ms).data ∧
    (pyLen m > 60 →
      entryLine r = "• " ++ pyStrOpt r.name ++ "  [" ++
        toString r.last_message_time ++ "]" ++ "\n  " ++ (pyTake m 60 ++ "...")) ∧
    (pyLen m ≤ 60 →
      entryLine r = "• " ++ pyStrOpt r.name ++ "  [" ++
        toString r.last_message_time ++ "]" ++ "\n  " ++ m) := by
  refine ⟨?_, ?_, ?_⟩
  · exact data_infix_pyJoin "\n" _ (entryLine r)
      (List.mem_cons_of_mem _ (List.mem_map.mpr ⟨r, hr, rfl⟩))
  · intro hlen
    simp only [entryLine, preview, hm, if_pos hlen, String.append_assoc]
  · intro hlen
    have hn : ¬ pyLen m > 60 := by omega
    simp only [entryLine, preview, hm, if_neg hn, String.append_assoc]

/-- Witness for the amended C6: a concrete over-budget preview is truncated
with the ellipsis marker, and the entry occurs in the rendered output. -/
theorem claim_C6_amended_witness :
    (entryLine standupRow).data <:+: (renderMatches "Work" [standupRow]).data ∧
    entryLine standupRow = "• " ++ pyStrOpt standupRow.name ++ "  [" ++
      toString standupRow.last_message_time ++ "]" ++ "\n  " ++
      (pyTake longMsg 60 ++ "...") :=
  ⟨(claim_C6_amended_entry_format "Work" [standupRow] standupRow (by decide)
      longMsg rfl).1,
   (claim_C6_amended_entry_format "Work" [standupRow] standupRow (by decide)
      longMsg rfl).2.1 (by decide)⟩

/-- Claim C9: send_message with an empty recipient returns the fixed failure
record and performs no transport invocation (empty trace, transport never
consulted); with a nonempty recipient the transport is invoked exactly once
(singleton trace with those arguments) and the success and message fields
equal the pair the transport returned. -/
theorem claim_C9_send_message (transport : String → String → Bool × String)
    (recipient message : String) :
    (recipient = "" →
      send_message transport recipient message =
        ({ success := false, message := "Recipient must be provided" }, [])) ∧
    (recipient ≠ "" →
      send_message transport recipient message =
        ({ success := (transport recipient message).1,
           message := (transport recipient message).2 }, [(recipient, message)])) := by
  constructor
  · rintro rfl
    rfl
  · intro h
    unfold send_message
    rw [if_neg (by simpa using h)]

/-- Witness for C9: both branches at concrete inputs. -/
theorem claim_C9_witness :
    send_message demoTransport "" "hello" =
        ({ success := false, message := "Recipient must be provided" }, []) ∧
      send_message demoTransport "15551234567" "hello" =
        ({ success := (demoTransport "15551234567" "hello").1,
           message := (demoTransport "15551234567" "hello").2 },
          [("15551234567", "hello")]) :=
  ⟨(claim_C9_send_message demoTransport "" "hello").1 rfl,
   (claim_C9_send_message demoTransport "15551234567" "hello").2 (by decide)⟩

/-- Counterexample to claim C10: a download yielding the non-null path `""`
does not produce success=true with a file_path key — Python truthiness makes
the code take the failure branch. -/
theorem claim_C10_counterexample :
    emptyPathDl "m1" "chat@g.us" ≠ none ∧
      download_media emptyPathDl "m1" "chat@g.us" =
        { success := false, message := "Failed to download media",
          file_path := none } :=
  ⟨by decide, rfl⟩

/-- Claim C10 amended: download_media returns success=true with a file_path
key equal to the produced path exactly when the download yields a non-null,
non-empty path; when it yields null or the empty string, the result is
success=false with a failure message and no file_path key. -/
theorem claim_C10_amended_truthiness (dl : String → String → Option String)
    (message_id chat_jid : String) (p : String) :
    (dl message_id chat_jid = some p → p ≠ "" →
      download_media dl message_id chat_jid =
        { success := true, message := "Media downloaded successfully",
          file_path := some p }) ∧
    (dl message_id chat_jid = none ∨ dl message_id chat_jid = some "" →
      download_media dl message_id chat_jid =
        { success := false, message := "Failed to download media",
          file_path := none }) := by
  constructor
  · intro hdl hp
    unfold download_media
    rw [hdl]
    simp [pyTruthy, hp]
  · rintro (hdl | hdl) <;>
      · unfold download_media
        rw [hdl]
        rfl

/-- Witness for the amended C10: both branches at concrete inputs. -/
theorem claim_C10_amended_witness :
    download_media photoDl "m1" "c@g.us" =
        { success := true, message := "Media downloaded successfully",
          file_path := some "/tmp/photo.jpg" } ∧
      download_media (fun _ _ => none) "m1" "c@g.us" =
        { success := false, message := "Failed to download media",
          file_path := none } :=
  ⟨(claim_C10_amended_truthiness photoDl "m1" "c@g.us" "/tmp/photo.jpg").1
      rfl (by decide),
   (claim_C10_amended_truthiness (fun _ _ => none) "m1" "c@g.us" "").2 (Or.inl rfl)⟩

end WhatsappMCP
